import Mathlib

/-!
Shallow embedding of the `ewebsock` native tokio backend
(`src/lib.rs` and `src/native_tungstenite_tokio.rs`).

The concurrent Rust code is modelled by pure state-passing functions:
the tokio mpsc channels become explicit buffers with a live-sender-handle
count, `tokio::spawn`ed send tasks become a pending-task list consumed by
an explicit scheduler, and the async read/write loops of
`ws_connect_async` become folds over the list of items the underlying
tungstenite stream yields.
-/

set_option maxHeartbeats 1000000

/-- Mirrors `enum WsMessage` in `src/lib.rs` (bytes as `List Nat`). -/
inductive WsMessage
  | Binary (data : List Nat)
  | Text (text : String)
  | Unknown (text : String)
  | Ping (data : List Nat)
  | Pong (data : List Nat)
deriving DecidableEq, Repr

/-- Mirrors `enum WsEvent` in `src/lib.rs`. -/
inductive WsEvent
  | Opened
  | Message (message : WsMessage)
  | Error (description : String)
  | Closed
deriving DecidableEq, Repr

/-- Mirrors Rust's `std::ops::ControlFlow<()>`, the return type of the
event handler `EventHandler = Box<dyn Fn(WsEvent) -> ControlFlow<()>>`. -/
inductive CtrlFlow
  | Continue
  | Break
deriving DecidableEq, Repr

/-- Mirrors `ControlFlow::is_break`. -/
def CtrlFlow.isBreak : CtrlFlow → Bool
  | .Continue => false
  | .Break => true

/-- Mirrors `struct Options` in `src/lib.rs` (`delay_blocking` in ms). -/
structure Options where
  max_incoming_frame_size : Nat
  delay_blocking : Nat
deriving DecidableEq, Repr

/-- Mirrors `impl Default for Options`. -/
def Options.default : Options :=
  { max_incoming_frame_size := 64 * 1024 * 1024, delay_blocking := 10 }

/-! ## Sender side

`WsSender` holds `tx: Option<tokio::sync::mpsc::Sender<WsMessage>>`.
The channel itself (created in `ws_connect_native` with capacity 1000) is
modelled by `MpscChannel`: its buffered messages plus the number of live
sender handles (the one stored in `tx`, the temporary clones held by
spawned send tasks, and any handle leaked by `forget`).  The receiving
half (`rx.recv()` inside the `async_stream`) observes end-of-stream
exactly when the buffer is drained and no sender handle is live. -/

/-- The outgoing bounded mpsc channel of `ws_connect_native`
(`tokio::sync::mpsc::channel(1000)`): buffered messages plus the count of
live `Sender` handles. -/
structure MpscChannel where
  buffer : List WsMessage
  senders : Nat
deriving DecidableEq, Repr

/-- Mirrors `struct WsSender { tx: Option<mpsc::Sender<WsMessage>> }`. -/
structure WsSender where
  tx : Option Unit
deriving DecidableEq, Repr

/-- The shared state the sender-side operations act on: the outgoing
channel, the `tokio::spawn`ed send tasks not yet executed (in spawn
order, each holding a `tx.clone()`), and the count of handles leaked by
`mem::forget`. -/
structure SendWorld where
  chan : MpscChannel
  tasks : List WsMessage
  leaked : Nat
deriving DecidableEq, Repr

/-- Mirrors `WsSender::send`: `if let Some(tx) = self.tx.clone() {
tokio::spawn(async move { tx.send(msg).await }); }`.  Cloning the handle
bumps the live-handle count and the spawned task is appended to the
pending-task list; nothing reaches the channel buffer until the scheduler
runs the task.  With `tx == None` (after `close`) it does nothing. -/
def WsSender.send (self : WsSender) (w : SendWorld) (msg : WsMessage) :
    WsSender × SendWorld :=
  match self.tx with
  | some _ =>
      (self,
       { w with
         chan := { w.chan with senders := w.chan.senders + 1 }
         tasks := w.tasks ++ [msg] })
  | none => (self, w)

/-- Mirrors `WsSender::close`: `self.tx = None;` — overwriting the field
drops the held handle (the live-handle count decreases); if `tx` was
already `None` nothing changes (the `log::debug!` is not modelled). -/
def WsSender.close (self : WsSender) (w : SendWorld) :
    WsSender × SendWorld :=
  match self.tx with
  | some _ =>
      ({ tx := none },
       { w with chan := { w.chan with senders := w.chan.senders - 1 } })
  | none => (self, w)

/-- Mirrors `impl Drop for WsSender { fn drop(&mut self) { self.close(); } }`:
every exit path that destroys a non-forgotten `WsSender` runs `close`. -/
def WsSender.drop (self : WsSender) (w : SendWorld) :
    WsSender × SendWorld :=
  self.close w

/-- Mirrors `WsSender::forget`:
`std::mem::forget(self.tx.take())` — the handle is taken out of the
sender and intentionally leaked, so it is never dropped: the live-handle
count stays as it is and the channel never closes on its account.
(`self` is consumed; `Drop` then runs on `tx == None` and does nothing.) -/
def WsSender.forget (self : WsSender) (w : SendWorld) : SendWorld :=
  match self.tx with
  | some _ => { w with leaked := w.leaked + 1 }
  | none => w

/-- Runs one pending `tokio::spawn`ed send task, chosen by index `i` —
tokio gives no ordering guarantee between distinct spawned tasks, so the
scheduler may pick any pending one.  The task performs
`tx.send(msg).await`, which completes only while the bounded channel
(capacity 1000) has room, then drops its clone of the handle. -/
def runSendTask (w : SendWorld) (i : Nat) : SendWorld :=
  match w.tasks.get? i with
  | some msg =>
      if w.chan.buffer.length < 1000 then
        { chan :=
            { buffer := w.chan.buffer ++ [msg]
              senders := w.chan.senders - 1 }
          tasks := w.tasks.eraseIdx i
          leaked := w.leaked }
      else w
  | none => w

/-- Runs a whole schedule: a sequence of task-index choices. -/
def runSchedule (w : SendWorld) : List Nat → SendWorld
  | [] => w
  | i :: rest => runSchedule (runSendTask w i) rest

/-- Mirrors `ws_connect_native`: creates the outgoing channel
(`tokio::sync::mpsc::channel(1000)`), spawns the connection task (whose
behaviour is `wsConnectAsyncRun` below), and returns
`WsSender { tx: Some(tx) }`.  It cannot fail.  The `on_event` handler is
only moved into the spawned task, so it does not appear in the returned
value. -/
def ws_connect_native (url : String) (options : Options) :
    WsSender × SendWorld :=
  ({ tx := some () },
   { chan := { buffer := [], senders := 1 }, tasks := [], leaked := 0 })

/-- Mirrors `ws_connect_impl` (native): `Ok(ws_connect_native(url, options,
on_event))` — it always returns `Ok`. -/
def ws_connect_impl (url : String) (options : Options) :
    Except String (WsSender × SendWorld) :=
  .ok (ws_connect_native url options)

/-- Mirrors `ws_connect` in `src/lib.rs`: forwards to `ws_connect_impl`. -/
def ws_connect (url : String) (options : Options) :
    Except String (WsSender × SendWorld) :=
  ws_connect_impl url options

/-! ## Claim theorems about the sender -/

/-- C1. The spec claims messages passed to `WsSender::send` reach the
transport in FIFO call order.  The code spawns an independent tokio task
per `send` (`tokio::spawn(async move { tx.send(msg).await })`), and tokio
orders distinct tasks arbitrarily: starting from a fresh
`ws_connect_native` sender, sending `Text "a"` then `Text "b"` and
letting the scheduler poll the second spawned task first puts `b` before
`a` in the outgoing channel — the transport write order is not the call
order. -/
theorem send_order_not_fifo :
    (let s0 := ws_connect_native "ws://x" Options.default
     let p1 := s0.1.send s0.2 (WsMessage.Text "a")
     let p2 := p1.1.send p1.2 (WsMessage.Text "b")
     (runSchedule p2.2 [1, 0]).chan.buffer)
      = [WsMessage.Text "b", WsMessage.Text "a"]
    ∧ [WsMessage.Text "b", WsMessage.Text "a"]
        ≠ [WsMessage.Text "a", WsMessage.Text "b"] := by
  constructor
  · rfl
  · decide

/-- C7. Dropping a `WsSender` runs `close` (the `Drop` impl), releasing
the held channel handle: for a sender holding the only live handle, the
live-handle count reaches 0, which is what signals the transport task's
`rx.recv()` loop to end.  `forget` instead takes the handle and
`mem::forget`s it: the live-handle count is unchanged (the handle is
leaked), so the channel — and hence the connection — stays open. -/
theorem drop_closes_forget_leaks (s : WsSender) (w : SendWorld)
    (hs : s.tx = some ()) (hw : w.chan.senders = 1) :
    s.drop w = s.close w
    ∧ (s.drop w).2.chan.senders = 0
    ∧ (s.drop w).1.tx = none
    ∧ (s.forget w).chan.senders = 1
    ∧ (s.forget w).leaked = w.leaked + 1 := by
  refine ⟨rfl, ?_, ?_, ?_, ?_⟩ <;>
    simp [WsSender.drop, WsSender.close, WsSender.forget, hs, hw]

/-- Witness for `drop_closes_forget_leaks` at the sender returned by
`ws_connect_native`. -/
theorem drop_closes_forget_leaks_witness :
    ((ws_connect_native "ws://x" Options.default).1.drop
        (ws_connect_native "ws://x" Options.default).2).2.chan.senders = 0
    ∧ ((ws_connect_native "ws://x" Options.default).1.forget
        (ws_connect_native "ws://x" Options.default).2).chan.senders = 1 :=
  ⟨(drop_closes_forget_leaks (ws_connect_native "ws://x" Options.default).1
      (ws_connect_native "ws://x" Options.default).2 rfl rfl).2.1,
   (drop_closes_forget_leaks (ws_connect_native "ws://x" Options.default).1
      (ws_connect_native "ws://x" Options.default).2 rfl rfl).2.2.2.1⟩

/-- C8. `close` is idempotent — a second `close` changes neither the
sender nor the shared state — and after a `close` every `send` is a
silent no-op: it spawns no task and enqueues nothing (the whole state is
unchanged). -/
theorem close_idempotent_send_noop (s : WsSender) (w : SendWorld)
    (msg : WsMessage) :
    (let p := s.close w; p.1.close p.2) = s.close w
    ∧ (let p := s.close w; p.1.send p.2 msg) = s.close w := by
  cases h : s.tx <;> simp [WsSender.close, WsSender.send, h]

/-! ## The transport bridge: write side

`ws_connect_async` splits the socket into `(write, read)` halves.  The
writer maps each outgoing `WsMessage` to a
`tungstenite::protocol::Message` and forwards it to the socket; the
`WsMessage::Unknown` arm is `panic!("You cannot send WsMessage::Unknown")`,
which aborts the writer task at that message. -/

/-- Mirrors `tungstenite::protocol::Message`, the wire-frame type the
backend reads and writes (the close frame's payload is reduced to an
optional string, the raw `Frame` payload to bytes). -/
inductive TungsteniteMessage
  | Text (text : String)
  | Binary (data : List Nat)
  | Ping (data : List Nat)
  | Pong (data : List Nat)
  | Close (frame : Option String)
  | Frame (raw : List Nat)
deriving DecidableEq, Repr

/-- Mirrors the `match ws_message` in the writer of `ws_connect_async`
(lines 113–119): each sendable variant maps to its wire frame; the
`Unknown` arm panics. -/
def toTungstenite : WsMessage → Except String TungsteniteMessage
  | .Text text => .ok (.Text text)
  | .Binary data => .ok (.Binary data)
  | .Ping data => .ok (.Ping data)
  | .Pong data => .ok (.Pong data)
  | .Unknown _ => .error "You cannot send WsMessage::Unknown"

/-- Runs the writer over the outgoing messages it drains from the
channel: the frames actually forwarded to the socket, and whether the
writer panicked.  A panic aborts the task, so nothing at or after the
panicking message is written. -/
def writerFrames : List WsMessage → List TungsteniteMessage × Bool
  | [] => ([], false)
  | msg :: rest =>
    match toTungstenite msg with
    | .error _ => ([], true)
    | .ok frame =>
        let out := writerFrames rest
        (frame :: out.1, out.2)

/-- C6. The writer panics on `WsMessage::Unknown` instead of writing it:
for an outgoing sequence whose first `Unknown` message follows only
non-`Unknown` messages, the frames written are exactly the translations
of those earlier messages — no bytes derived from the `Unknown` message
(nor anything after it) reach the transport — and the writer task dies
by panic. -/
theorem unknown_never_written (front rest : List WsMessage) (s : String)
    (h : ∀ m ∈ front, ∀ t, m ≠ WsMessage.Unknown t) :
    toTungstenite (WsMessage.Unknown s)
      = .error "You cannot send WsMessage::Unknown"
    ∧ writerFrames (front ++ WsMessage.Unknown s :: rest)
      = (front.filterMap fun m => (toTungstenite m).toOption, true) := by
  refine ⟨rfl, ?_⟩
  induction front with
  | nil => rfl
  | cons m front ih =>
      have hm : ∀ t, m ≠ WsMessage.Unknown t := h m (by simp)
      have hrest : ∀ m' ∈ front, ∀ t, m' ≠ WsMessage.Unknown t :=
        fun m' hm' => h m' (by simp [hm'])
      cases m with
      | Unknown t => exact absurd rfl (hm t)
      | Text t =>
          simp [writerFrames, toTungstenite, List.filterMap_cons,
            Except.toOption, ih hrest]
      | Binary d =>
          simp [writerFrames, toTungstenite, List.filterMap_cons,
            Except.toOption, ih hrest]
      | Ping d =>
          simp [writerFrames, toTungstenite, List.filterMap_cons,
            Except.toOption, ih hrest]
      | Pong d =>
          simp [writerFrames, toTungstenite, List.filterMap_cons,
            Except.toOption, ih hrest]

/-- Witness for `unknown_never_written`: sending `Text "hi"` then
`Unknown "x"` writes only the text frame and panics. -/
theorem unknown_never_written_witness :
    toTungstenite (WsMessage.Unknown "x")
      = .error "You cannot send WsMessage::Unknown"
    ∧ writerFrames ([WsMessage.Text "hi"] ++ WsMessage.Unknown "x" :: [])
      = ([WsMessage.Text "hi"].filterMap fun m => (toTungstenite m).toOption,
         true) :=
  unknown_never_written [WsMessage.Text "hi"] [] "x" (by
    intro m hm t
    simp only [List.mem_singleton] at hm
    subst hm
    simp)

/-! ## The transport bridge: read side

`ws_connect_async` first awaits the handshake
(`tokio_tungstenite::connect_async_with_config`); on failure it calls
`on_event(WsEvent::Error(err.to_string()))` and returns.  On success it
calls `on_event(WsEvent::Opened)` — only logging a warning if the handler
asks to break — and then runs `read.for_each(...)` over the items the
tungstenite stream yields, racing it against the writer with
`futures::future::select`.  The loop below is therefore run on `items`,
the (possibly truncated) list of stream items the reader consumed before
`select` resolved; the theorems quantify over all such lists. -/

/-- Mirrors the `match event` in the reader's `for_each` (lines 124–142):
the event handed to `on_event` for one stream item, or `none` for the
`Message::Frame(_)` arm, which calls no handler and yields
`ControlFlow::Continue`.  A stream error is delivered as
`WsEvent::Error(err.to_string())`. -/
def readStep : Except String TungsteniteMessage → Option WsEvent
  | .ok (.Text text) => some (.Message (.Text text))
  | .ok (.Binary data) => some (.Message (.Binary data))
  | .ok (.Ping data) => some (.Message (.Ping data))
  | .ok (.Pong data) => some (.Message (.Pong data))
  | .ok (.Close _) => some .Closed
  | .ok (.Frame _) => none
  | .error err => some (.Error err)

/-- Result of running the bridge with a stateful handler: the events the
handler was invoked with (in order), the number of
`ControlFlow::Break not implemented` warnings logged, and the handler's
final state. -/
structure BridgeOut (σ : Type) where
  calls : List WsEvent
  warnings : Nat
  state : σ
deriving Repr

/-- Mirrors the reader `for_each` loop: every stream item is translated
by `readStep`; when a handler call is due it is made and — crucially —
the loop continues regardless of the returned `ControlFlow`, merely
logging a warning when it is `Break`. -/
def readerRun {σ : Type} (handler : σ → WsEvent → CtrlFlow × σ) :
    σ → List (Except String TungsteniteMessage) → BridgeOut σ
  | st, [] => ⟨[], 0, st⟩
  | st, item :: rest =>
    match readStep item with
    | none => readerRun handler st rest
    | some ev =>
        let c := handler st ev
        let out := readerRun handler c.2 rest
        ⟨ev :: out.calls,
         (if c.1.isBreak then 1 else 0) + out.warnings,
         out.state⟩

/-- Mirrors `ws_connect_async` run with a stateful handler: `handshake`
is the outcome of `connect_async_with_config` (error already rendered by
`to_string`), `items` the stream items the reader consumed before the
`select` race resolved.  On handshake failure the handler gets exactly
`Error(err)` and the function returns; on success it gets `Opened`
(Break again only logs) and then the reader loop runs. -/
def wsConnectAsyncRun {σ : Type} (handler : σ → WsEvent → CtrlFlow × σ)
    (st : σ) (handshake : Except String Unit)
    (items : List (Except String TungsteniteMessage)) : BridgeOut σ :=
  match handshake with
  | .error err =>
      let c := handler st (.Error err)
      ⟨[.Error err], 0, c.2⟩
  | .ok _ =>
      let c := handler st .Opened
      let out := readerRun handler c.2 items
      ⟨.Opened :: out.calls,
       (if c.1.isBreak then 1 else 0) + out.warnings,
       out.state⟩

/-- The sequence of events `ws_connect_async` delivers to the handler;
as `readerRun_calls` below proves, it does not depend on the handler. -/
def wsConnectAsyncEvents (handshake : Except String Unit)
    (items : List (Except String TungsteniteMessage)) : List WsEvent :=
  match handshake with
  | .error err => [.Error err]
  | .ok _ => .Opened :: items.filterMap readStep

/-- The events the reader loop delivers are the translated stream items,
independent of what the handler returns. -/
theorem readerRun_calls {σ : Type} (handler : σ → WsEvent → CtrlFlow × σ)
    (st : σ) (items : List (Except String TungsteniteMessage)) :
    (readerRun handler st items).calls = items.filterMap readStep := by
  induction items generalizing st with
  | nil => rfl
  | cons item rest ih =>
      cases h : readStep item <;>
        simp [readerRun, List.filterMap_cons, h, ih]

/-- The full bridge delivers `wsConnectAsyncEvents`, independent of the
handler. -/
theorem wsConnectAsyncRun_calls {σ : Type}
    (handler : σ → WsEvent → CtrlFlow × σ) (st : σ)
    (handshake : Except String Unit)
    (items : List (Except String TungsteniteMessage)) :
    (wsConnectAsyncRun handler st handshake items).calls
      = wsConnectAsyncEvents handshake items := by
  cases handshake <;>
    simp [wsConnectAsyncRun, wsConnectAsyncEvents, readerRun_calls]

/-- A handler that always requests a stop. -/
def alwaysBreakHandler : Unit → WsEvent → CtrlFlow × Unit :=
  fun _ _ => (.Break, ())

/-- C2. The claim (and the doc of `connect`/`ws_connect` in `src/lib.rs`)
says that after the handler returns `ControlFlow::Break` it is not called
again and shutdown begins.  The tokio backend does not implement this:
with a handler that breaks on every event (so in particular on `Opened`),
an incoming `Text "x"` frame still produces a second handler call
`Message (Text "x")`, and the bridge merely logs the
`ControlFlow::Break not implemented` warning twice. -/
theorem break_not_honored :
    (wsConnectAsyncRun alwaysBreakHandler () (.ok ())
        [Except.ok (TungsteniteMessage.Text "x")]).calls
      = [WsEvent.Opened, WsEvent.Message (WsMessage.Text "x")]
    ∧ (wsConnectAsyncRun alwaysBreakHandler () (.ok ())
        [Except.ok (TungsteniteMessage.Text "x")]).warnings = 2 :=
  ⟨rfl, rfl⟩

/-- C3 counterexample. The reader loop does not stop after delivering
`Closed`: if the stream yields a further item after the close frame (a
misbehaving peer; the loop itself never breaks), that item is delivered
too — here `Message (Text "x")` arrives at index 2, right after `Closed`
at index 1. -/
theorem closed_not_terminal :
    (wsConnectAsyncEvents (.ok ())
        [Except.ok (TungsteniteMessage.Close none),
         Except.ok (TungsteniteMessage.Text "x")]).get? 1
      = some WsEvent.Closed
    ∧ (wsConnectAsyncEvents (.ok ())
        [Except.ok (TungsteniteMessage.Close none),
         Except.ok (TungsteniteMessage.Text "x")]).get? 2
      = some (WsEvent.Message (WsMessage.Text "x")) :=
  ⟨rfl, rfl⟩

/-- C3 amended. The bridge forwards every stream item, so `Closed`/
`Error` is terminal exactly when the transport stream yields nothing
after the close frame or error: whenever the consumed stream ends at that
item — as the delegated protocol implementation normally guarantees — the
`Closed` (resp. `Error`) event is the last one delivered, and on
handshake failure the single `Error` event is the only one ever
delivered. -/
theorem terminal_when_stream_ends
    (front : List (Except String TungsteniteMessage)) (c : Option String)
    (e : String) (items : List (Except String TungsteniteMessage)) :
    wsConnectAsyncEvents (.ok ())
        (front ++ [Except.ok (TungsteniteMessage.Close c)])
      = (WsEvent.Opened :: front.filterMap readStep) ++ [WsEvent.Closed]
    ∧ wsConnectAsyncEvents (.ok ()) (front ++ [Except.error e])
      = (WsEvent.Opened :: front.filterMap readStep) ++ [WsEvent.Error e]
    ∧ wsConnectAsyncEvents (.error e) items = [WsEvent.Error e] := by
  refine ⟨?_, ?_, rfl⟩ <;>
    simp [wsConnectAsyncEvents, List.filterMap_append, readStep]

/-- C4. `ws_connect_impl` (hence `ws_connect` and `connect`) never fails
synchronously — handshake failure in particular cannot surface there,
since the handshake happens inside the spawned task — and when the remote
endpoint refuses the handshake, the event stream consists of exactly one
`Error(description)` event and nothing else. -/
theorem connect_ok_handshake_error_event (url : String) (options : Options)
    (e : String) (items : List (Except String TungsteniteMessage)) :
    ws_connect url options = .ok (ws_connect_native url options)
    ∧ ws_connect_impl url options = .ok (ws_connect_native url options)
    ∧ wsConnectAsyncEvents (.error e) items = [WsEvent.Error e] :=
  ⟨rfl, rfl, rfl⟩

/-- No stream item ever translates to `Opened`: the reader loop cannot
emit it. -/
theorem readStep_ne_opened (item : Except String TungsteniteMessage) :
    readStep item ≠ some WsEvent.Opened := by
  rcases item with err | m
  · simp [readStep]
  · cases m <;> simp [readStep]

/-- `Opened` never occurs among the reader loop's events. -/
theorem opened_not_mem_reader
    (items : List (Except String TungsteniteMessage)) :
    WsEvent.Opened ∉ items.filterMap readStep := by
  intro hmem
  rcases List.mem_filterMap.mp hmem with ⟨a, _, ha⟩
  exact readStep_ne_opened a ha

/-- C5. In every trace `ws_connect_async` delivers, `Opened` occurs at
most once (any two occurrences share their index), and every `Message`
event is preceded by `Opened` — indeed `Opened` sits at index 0 of the
trace whenever a `Message` occurs at all. -/
theorem opened_at_most_once_before_messages (handshake : Except String Unit)
    (items : List (Except String TungsteniteMessage)) :
    (∀ i j, (wsConnectAsyncEvents handshake items).get? i
          = some WsEvent.Opened →
        (wsConnectAsyncEvents handshake items).get? j
          = some WsEvent.Opened → i = j)
    ∧ (∀ i m, (wsConnectAsyncEvents handshake items).get? i
          = some (WsEvent.Message m) →
        0 < i ∧ (wsConnectAsyncEvents handshake items).get? 0
          = some WsEvent.Opened) := by
  cases handshake with
  | error e =>
      constructor
      · intro i j hi hj
        cases i with
        | zero => simp [wsConnectAsyncEvents] at hi
        | succ k => simp [wsConnectAsyncEvents] at hi
      · intro i m hi
        cases i with
        | zero => simp [wsConnectAsyncEvents] at hi
        | succ k => simp [wsConnectAsyncEvents] at hi
  | ok u =>
      have hz : ∀ i, (wsConnectAsyncEvents (.ok u) items).get? i
          = some WsEvent.Opened → i = 0 := by
        intro i hi
        cases i with
        | zero => rfl
        | succ k =>
            exfalso
            apply opened_not_mem_reader items
            exact List.get?_mem hi
      constructor
      · intro i j hi hj
        rw [hz i hi, hz j hj]
      · intro i m hi
        cases i with
        | zero => simp [wsConnectAsyncEvents] at hi
        | succ k => exact ⟨Nat.succ_pos k, rfl⟩

/-- Witness for `opened_at_most_once_before_messages`: with a successful
handshake and one incoming text frame, the message at index 1 is
preceded by `Opened` at index 0. -/
theorem opened_before_messages_witness :
    0 < 1
    ∧ (wsConnectAsyncEvents (.ok ())
        [Except.ok (TungsteniteMessage.Text "hi")]).get? 0
      = some WsEvent.Opened :=
  (opened_at_most_once_before_messages (.ok ())
      [Except.ok (TungsteniteMessage.Text "hi")]).2 1
    (WsMessage.Text "hi") rfl

/-! ## Receiver side

`WsReceiver::new_with_callback` creates an unbounded event channel; the
returned `EventHandler` closure owns the sending half, the `WsReceiver`
owns the receiving half.  The channel is modelled by its buffer plus
whether the receiving half is still alive (the unbounded `send` fails
exactly when the receiver was dropped). -/

/-- The unbounded event channel of `WsReceiver::new_with_callback`
(`tokio::sync::mpsc::unbounded_channel`). -/
structure UnboundedChannel where
  buffer : List WsEvent
  rxAlive : Bool
deriving DecidableEq, Repr

/-- Mirrors `tx.send(event)` on the unbounded channel: appends at the
tail and succeeds iff the receiving half is still alive. -/
def UnboundedChannel.send (ch : UnboundedChannel) (event : WsEvent) :
    Bool × UnboundedChannel :=
  if ch.rxAlive then (true, { ch with buffer := ch.buffer ++ [event] })
  else (false, ch)

/-- Mirrors `WsReceiver::try_recv`: `self.rx.try_recv().ok()` — takes the
head of the buffer if any; both the empty and the disconnected case are
collapsed to `None` by `.ok()`, neither is an error. -/
def tryRecv (ch : UnboundedChannel) : Option WsEvent × UnboundedChannel :=
  match ch.buffer with
  | [] => (none, ch)
  | e :: rest => (some e, { ch with buffer := rest })

/-- State threaded through the handler closure built by
`WsReceiver::new_with_callback`: the channel (whose sending half the
closure owns) and the number of times the `wake_up` callback has run. -/
structure ReceiverCtx where
  chan : UnboundedChannel
  wakeUps : Nat
deriving DecidableEq, Repr

/-- Mirrors the `on_event` closure of `WsReceiver::new_with_callback`
(lines 61–68): first `wake_up()` runs (modelled by bumping the counter —
it is sequenced before the enqueue attempt), then `tx.send(event)`;
`Continue` on success, `Break` on failure. -/
def onEventStep (ctx : ReceiverCtx) (event : WsEvent) :
    CtrlFlow × ReceiverCtx :=
  let woken : ReceiverCtx := { ctx with wakeUps := ctx.wakeUps + 1 }
  let sent := woken.chan.send event
  if sent.1 then (.Continue, { woken with chan := sent.2 })
  else (.Break, { woken with chan := sent.2 })

/-- Runs the handler closure over a list of delivered events. -/
def onEventRun (ctx : ReceiverCtx) : List WsEvent → ReceiverCtx
  | [] => ctx
  | e :: rest => onEventRun (onEventStep ctx e).2 rest

/-- The fresh receiver context of `WsReceiver::new` /
`new_with_callback`: empty channel, receiver alive, callback not yet
run. -/
def freshReceiverCtx : ReceiverCtx :=
  { chan := { buffer := [], rxAlive := true }, wakeUps := 0 }

/-- The results of `n` successive `try_recv` calls. -/
def recvN : Nat → UnboundedChannel → List (Option WsEvent)
  | 0, _ => []
  | n + 1, ch =>
      let r := tryRecv ch
      r.1 :: recvN n r.2

/-- While the receiver is alive, running the handler appends the events
at the buffer's tail, in order, and keeps the receiver alive. -/
theorem onEventRun_buffer (events : List WsEvent) (ctx : ReceiverCtx)
    (halive : ctx.chan.rxAlive = true) :
    (onEventRun ctx events).chan.buffer = ctx.chan.buffer ++ events
    ∧ (onEventRun ctx events).chan.rxAlive = true := by
  induction events generalizing ctx with
  | nil => simpa using ⟨rfl, halive⟩
  | cons e rest ih =>
      have step :
          (onEventStep ctx e).2.chan.buffer = ctx.chan.buffer ++ [e]
          ∧ (onEventStep ctx e).2.chan.rxAlive = true := by
        simp [onEventStep, UnboundedChannel.send, halive]
      have h2 := ih (onEventStep ctx e).2 step.2
      refine ⟨?_, h2.2⟩
      simp [onEventRun, h2.1, step.1]

/-- Draining a channel with `buffer.length` calls of `try_recv` yields
exactly the buffer, head first. -/
theorem recvN_buffer (l : List WsEvent) (alive : Bool) :
    recvN l.length ⟨l, alive⟩ = l.map some := by
  induction l with
  | nil => rfl
  | cons e rest ih => simp [recvN, tryRecv, ih]

/-- C9. `try_recv` is a total, non-blocking dequeue: on an empty queue it
returns `none` — the "no event available" signal, not an error, whether
or not the sending side is gone — and the events the handler enqueued
come back in exactly that FIFO order: feeding any event list through the
handler of a fresh receiver and then calling `try_recv` once per event
returns precisely that list. -/
theorem try_recv_fifo (events : List WsEvent) :
    (tryRecv { buffer := [], rxAlive := true }).1 = none
    ∧ (tryRecv { buffer := [], rxAlive := false }).1 = none
    ∧ recvN events.length (onEventRun freshReceiverCtx events).chan
      = events.map some := by
  refine ⟨rfl, rfl, ?_⟩
  have hbuf := onEventRun_buffer events freshReceiverCtx rfl
  have hchan : (onEventRun freshReceiverCtx events).chan
      = ⟨events, (onEventRun freshReceiverCtx events).chan.rxAlive⟩ := by
    cases hc : (onEventRun freshReceiverCtx events).chan with
    | mk b a =>
        have : b = events := by
          have := hbuf.1
          rw [hc] at this
          simpa [freshReceiverCtx] using this
        simp [this]
  rw [hchan]
  exact recvN_buffer events _

/-- C10. One invocation of the handler closure: it returns `Continue`
exactly when the event landed in the receiver's queue (the buffer grew by
that event at the tail), it returns `Break` exactly when the receiver had
been dropped, and the `wake_up` callback runs on every invocation —
sequenced before the enqueue attempt — including when the enqueue
fails. -/
theorem handler_continue_iff_enqueued (ctx : ReceiverCtx)
    (event : WsEvent) :
    ((onEventStep ctx event).1 = CtrlFlow.Continue
      ↔ (onEventStep ctx event).2.chan.buffer
          = ctx.chan.buffer ++ [event])
    ∧ ((onEventStep ctx event).1 = CtrlFlow.Break
      ↔ ctx.chan.rxAlive = false)
    ∧ (onEventStep ctx event).2.wakeUps = ctx.wakeUps + 1 := by
  cases halive : ctx.chan.rxAlive with
  | true =>
      refine ⟨?_, ?_, ?_⟩ <;>
        simp [onEventStep, UnboundedChannel.send, halive]
  | false =>
      refine ⟨?_, ?_, ?_⟩ <;>
        simp [onEventStep, UnboundedChannel.send, halive]

/-- Witness for `handler_continue_iff_enqueued`: on a fresh receiver the
handler enqueues `Opened`, continues, and has woken the callback once. -/
theorem handler_continue_iff_enqueued_witness :
    (onEventStep freshReceiverCtx WsEvent.Opened).1 = CtrlFlow.Continue
    ∧ (onEventStep freshReceiverCtx WsEvent.Opened).2.wakeUps = 0 + 1 :=
  ⟨(handler_continue_iff_enqueued freshReceiverCtx WsEvent.Opened).1.mpr
      rfl,
   (handler_continue_iff_enqueued freshReceiverCtx WsEvent.Opened).2.2⟩
